import Mathlib

/-!
Shallow embedding of `src/models/dictionary.rs` from the neolatino-api
repository, together with the auxiliary types it uses
(`Topic`, `LanguageCode`, `ApiError`, `Counters`, `Entry` live in sibling
modules of the crate; their shapes are fixed by their usage in
`dictionary.rs` and by the specification).

Modelling decisions:
- machine integers (`u32`) become `Nat` with an explicit `< 2^32` bound in
  the numeric parser (Rust's `str::parse::<u32>` fails on overflow);
- `HashMap<u32, Entry>` becomes an association list `List (Nat × Entry)`
  with last-write-wins insertion, mirroring `HashMap::insert` overwrite
  semantics; iteration order of values is the list order (the source makes
  no ordering promise);
- fallible Rust code (`ApiResult<T>`) becomes `Except ApiError T`;
- the network fetch of `fetch_dict` is passed in as an
  `Except ApiError (List (List String))`: either a transport failure or
  the CSV records of the response body (each record a list of cells), so
  the CSV lexing layer itself is outside the embedding;
- `&mut self` methods return the new state explicitly
  (`Dictionary × Except ApiError Unit`);
- `DateTime<Utc>` timestamps become `Nat`, with `Utc::now()` passed in.
-/

/-- Modelled from the spec: the closed topic enumeration lives in a sibling
module (`models/topic`), outside `src/`; the spec fixes only that it is a
fixed closed set of categories, so representative variants are used. -/
inductive Topic
  | t1
  | t2
  | t3
deriving DecidableEq, Repr

/-- The per-language codes; the variant list and order mirror the fixed
per-language columns of `RawEntry` / `Counters` in `dictionary.rs` (the enum
itself lives in `models`, outside `src/`). -/
inductive LanguageCode
  | lat
  | iro
  | por
  | spa
  | cat
  | occ
  | fra
  | srd
  | ita
  | rom
  | eng
  | fol
  | frk
  | sla
deriving DecidableEq, Repr

/-- The list produced by `LanguageCode::iter()` (strum iterates variants in
declaration order). -/
def LanguageCode.all : List LanguageCode :=
  [.lat, .iro, .por, .spa, .cat, .occ, .fra, .srd, .ita, .rom, .eng, .fol, .frk, .sla]

/-- Modelled from the spec: the error kinds of `error.rs` (outside `src/`).
`MissingDictHeaders` and `EntryNotFound` are named as used in
`dictionary.rs`; `MalformedNumber` is the kind a `ParseIntError` converts
into per the spec's error-kind list; `FetchFailed` is the transport error. -/
inductive ApiError
  | FetchFailed
  | MissingDictHeaders
  | MalformedNumber
  | EntryNotFound (id : Nat)
deriving DecidableEq, Repr

/-- The sixteen aggregate counters, field names and order as constructed in
`fetch_dict`. -/
structure Counters where
  total : Nat
  sem : Nat
  lat : Nat
  iro : Nat
  por : Nat
  spa : Nat
  cat : Nat
  occ : Nat
  fra : Nat
  srd : Nat
  ita : Nat
  rom : Nat
  eng : Nat
  fol : Nat
  frk : Nat
  sla : Nat
deriving DecidableEq, Repr

/-- `Counters::default()`: all counts zero. -/
instance : Inhabited Counters :=
  ⟨⟨0, 0, 0, 0, 0, 0, 0, 0, 0, 0, 0, 0, 0, 0, 0, 0⟩⟩

/-- One dictionary record; fields as written by the `TryFrom<RawEntry>`
impl in `dictionary.rs` (the struct itself lives in `models/entry`). -/
structure Entry where
  id : Nat
  sem_id : Option Nat
  topic : Option Topic
  essential_flag : Bool
  basic_flag : Bool
  lat : Option String
  iro : Option String
  por : Option String
  spa : Option String
  cat : Option String
  occ : Option String
  fra : Option String
  srd : Option String
  ita : Option String
  rom : Option String
  eng : Option String
  fol : Option String
  frk : Option String
  sla : Option String
deriving DecidableEq, Repr

/-- The text field of an entry for a given language code. -/
def Entry.lang (e : Entry) : LanguageCode → Option String
  | .lat => e.lat
  | .iro => e.iro
  | .por => e.por
  | .spa => e.spa
  | .cat => e.cat
  | .occ => e.occ
  | .fra => e.fra
  | .srd => e.srd
  | .ita => e.ita
  | .rom => e.rom
  | .eng => e.eng
  | .fol => e.fol
  | .frk => e.frk
  | .sla => e.sla

/-- Substring test (Rust `str::contains` with a string pattern). -/
def strContains (hay pat : String) : Bool :=
  pat.isEmpty || (hay.splitOn pat).length > 1

/-- Modelled from the spec: `Entry::matches` lives in `models/entry`,
outside `src/`; per the spec, the entry matches when it contains the text
in at least one of the language fields named in `langs`. -/
def Entry.matches (e : Entry) (t : String) (langs : List LanguageCode) : Bool :=
  langs.any fun l =>
    match e.lang l with
    | some s => strContains s t
    | none => false

/-- The raw per-row record of `fetch_dict`'s CSV deserialization, field
names and order exactly as in `struct RawEntry`. -/
structure RawEntry where
  id : Nat
  sem_id : Option Nat
  category : Option String
  topic : Option Topic
  sub_topic : Option String
  sub_sub_topic : Option String
  essential_flag : Option String
  basic_flag : Option String
  lat : Option String
  iro : Option String
  por : Option String
  spa : Option String
  cat : Option String
  occ : Option String
  fra : Option String
  srd : Option String
  ita : Option String
  rom : Option String
  eng : Option String
  fol : Option String
  frk : Option String
  sla : Option String
deriving DecidableEq, Repr

/-- Modelled from the spec: the serde `Deserialize` impl of `Topic` (in
`models/topic`, outside `src/`) maps each member of the closed topic set to
its name and everything else to a failure, which `ok_or_default` in
`dictionary.rs` turns into `None`; so the composite cell parser is total,
yielding `none` exactly on unknown topic strings. -/
def parseTopic (s : String) : Option Topic :=
  if s = "t1" then some .t1
  else if s = "t2" then some .t2
  else if s = "t3" then some .t3
  else none

/-- Empty CSV cell deserializes `Option<String>` to `None`, anything else to
`Some`. -/
def optStr (s : String) : Option String :=
  if s = "" then none else some s

/-- Rust `str::parse::<u32>` on a cell: an optional leading `+`, then one or
more ASCII digits, value below `2^32`; anything else fails. -/
def parseU32 (s : String) : Option Nat :=
  let t : List Char :=
    match s.data with
    | '+' :: rest => rest
    | l => l
  if !t.isEmpty && t.all Char.isDigit then
    let n := t.foldl (fun a ch => a * 10 + (ch.toNat - 48)) 0
    if n < 4294967296 then some n else none
  else none

/-- CSV deserialization of an `Option<u32>` cell: empty cell is `None`; a
non-empty cell must parse as `u32` or the row fails. -/
def parseOptU32 (s : String) : Option (Option Nat) :=
  if s = "" then some none else (parseU32 s).map some

/-- Strips every `.` (thousands separator) from a cell, as
`cell.replace('.', "")` in `read_int`. -/
def stripDots (s : String) : String :=
  String.mk (s.data.filter fun ch => ch != '.')

/-- The nested `fn read_int(r, index)` of `fetch_dict`: a missing column is
`MissingDictHeaders` (from `ok_or`), an unparsable stripped cell is the
`ParseIntError` conversion, i.e. `MalformedNumber`. -/
def read_int (r : List String) (index : Nat) : Except ApiError Nat :=
  match r.get? index with
  | none => .error .MissingDictHeaders
  | some cell =>
    match parseU32 (stripDots cell) with
    | some n => .ok n
    | none => .error .MalformedNumber

/-- The `Counters { .. }` construction in `fetch_dict`: sixteen `read_int`
calls at the fixed column positions 0, 1 and 8–21, each with `?`. -/
def parseCounters (r : List String) : Except ApiError Counters := do
  let total ← read_int r 0
  let sem ← read_int r 1
  let lat ← read_int r 8
  let iro ← read_int r 9
  let por ← read_int r 10
  let spa ← read_int r 11
  let cat ← read_int r 12
  let occ ← read_int r 13
  let fra ← read_int r 14
  let srd ← read_int r 15
  let ita ← read_int r 16
  let rom ← read_int r 17
  let eng ← read_int r 18
  let fol ← read_int r 19
  let frk ← read_int r 20
  let sla ← read_int r 21
  pure { total := total, sem := sem, lat := lat, iro := iro, por := por,
         spa := spa, cat := cat, occ := occ, fra := fra, srd := srd,
         ita := ita, rom := rom, eng := eng, fol := fol, frk := frk, sla := sla }

/-- Structural deserialization of one CSV record into `RawEntry`
(`r.deserialize::<RawEntry>(None)`): exactly the 22 columns of the struct in
order; `id` must parse as `u32`, `sem_id` as an optional `u32`, the `topic`
cell goes through the total `ok_or_default` parser, every other cell is an
optional string. A record of the wrong width or with an unparsable numeric
cell fails (yields `none`). -/
def deserializeRawEntry (row : List String) : Option RawEntry :=
  match row with
  | [c0, c1, c2, c3, c4, c5, c6, c7, c8, c9, c10, c11, c12, c13, c14, c15,
     c16, c17, c18, c19, c20, c21] =>
    match parseU32 c0, parseOptU32 c1 with
    | some i, some s =>
      some { id := i, sem_id := s, category := optStr c2, topic := parseTopic c3,
             sub_topic := optStr c4, sub_sub_topic := optStr c5,
             essential_flag := optStr c6, basic_flag := optStr c7,
             lat := optStr c8, iro := optStr c9, por := optStr c10,
             spa := optStr c11, cat := optStr c12, occ := optStr c13,
             fra := optStr c14, srd := optStr c15, ita := optStr c16,
             rom := optStr c17, eng := optStr c18, fol := optStr c19,
             frk := optStr c20, sla := optStr c21 }
    | _, _ => none
  | _ => none

/-- The body of `impl TryFrom<RawEntry> for Entry`: the flags come from
`matches!(.., Some(s) if s == "e")` (resp. `"b"`), everything else is
copied. -/
def entryOfRaw (r : RawEntry) : Entry :=
  { id := r.id, sem_id := r.sem_id, topic := r.topic,
    essential_flag := match r.essential_flag with
      | some s => s == "e"
      | none => false,
    basic_flag := match r.basic_flag with
      | some s => s == "b"
      | none => false,
    lat := r.lat, iro := r.iro, por := r.por, spa := r.spa, cat := r.cat,
    occ := r.occ, fra := r.fra, srd := r.srd, ita := r.ita, rom := r.rom,
    eng := r.eng, fol := r.fol, frk := r.frk, sla := r.sla }

/-- `Entry::try_from`: the conversion never actually fails. -/
def tryFromRaw (r : RawEntry) : Except ApiError Entry :=
  .ok (entryOfRaw r)

/-- The `HashMap<u32, Entry>` of the store, as an association list. -/
abbrev EntryMap := List (Nat × Entry)

/-- `HashMap::insert`: overwrites any existing binding for the key. -/
def insertE (m : EntryMap) (k : Nat) (v : Entry) : EntryMap :=
  (k, v) :: m.filter fun p => p.1 != k

/-- `HashMap::get` (cloned). -/
def findE (m : EntryMap) (k : Nat) : Option Entry :=
  (m.find? fun p => p.1 == k).map Prod.snd

/-- `HashMap::values` (cloned into a `Vec`). -/
def valuesE (m : EntryMap) : List Entry :=
  m.map Prod.snd

/-- One iteration of the `for r in records.flatten()` loop of `fetch_dict`:
a record that fails `deserialize::<RawEntry>` or `Entry::try_from` leaves
the map untouched; a successful one is inserted under its own id. -/
def buildStep (m : EntryMap) (row : List String) : EntryMap :=
  match deserializeRawEntry row with
  | some raw =>
    match tryFromRaw raw with
    | .ok e => insertE m e.id e
    | .error _ => m
  | none => m

/-- The whole entry loop of `fetch_dict`, starting from the empty map. -/
def buildEntries (rows : List (List String)) : EntryMap :=
  rows.foldl buildStep []

/-- The entry a record contributes, if any: structural deserialization
followed by the `TryFrom` conversion. -/
def parsedEntry (row : List String) : Option Entry :=
  match deserializeRawEntry row with
  | some raw =>
    match tryFromRaw raw with
    | .ok e => some e
    | .error _ => none
  | none => none

/-- `fetch_dict`, with the network response passed in: transport errors
propagate (`reqwest::get(url).await?.text().await?`); the first record is
the skipped title row, the second is the counters row (its absence is
`MissingDictHeaders`), the third is skipped, and the rest feed the entry
loop. -/
def fetchDict (response : Except ApiError (List (List String))) :
    Except ApiError (EntryMap × Counters) :=
  match response with
  | .error e => .error e
  | .ok rows =>
    match rows.get? 1 with
    | none => .error .MissingDictHeaders
    | some rCounters =>
      match parseCounters rCounters with
      | .error e => .error e
      | .ok counters => .ok (buildEntries (rows.drop 3), counters)

/-- The store state of `struct Dictionary`. -/
structure Dictionary where
  url : String
  entries : EntryMap
  counters : Counters
  last_update : Nat
deriving DecidableEq, Repr

/-- `Dictionary::update` (`&mut self`): on fetch-and-parse success all
three stored fields are replaced; on failure the state is returned as it
was and the error is surfaced. `response` is the outcome of the network
fetch for `self.url`; `now` is `Utc::now()`. -/
def Dictionary.update (d : Dictionary)
    (response : Except ApiError (List (List String))) (now : Nat) :
    Dictionary × Except ApiError Unit :=
  match fetchDict response with
  | .ok (entries, counters) =>
    ({ d with entries := entries, counters := counters, last_update := now }, .ok ())
  | .error e => (d, .error e)

/-- `Dictionary::from_url`: a fresh empty store whose first `update` must
succeed, otherwise the error propagates and no store is produced. -/
def Dictionary.from_url (url : String)
    (response : Except ApiError (List (List String))) (now : Nat) :
    Except ApiError Dictionary :=
  let d : Dictionary :=
    { url := url, entries := [], counters := default, last_update := now }
  match d.update response now with
  | (d2, .ok _) => .ok d2
  | (_, .error e) => .error e

/-- `Dictionary::get_entry`: `self.entries.get(&id).ok_or(EntryNotFound(id)).cloned()`. -/
def Dictionary.get_entry (d : Dictionary) (id : Nat) : Except ApiError Entry :=
  match findE d.entries id with
  | some e => .ok e
  | none => .error (.EntryNotFound id)

/-- The `sem_filter` of the closure in `Dictionary::search`. -/
def semFilter (sem_id : Option Nat) (e : Entry) : Bool :=
  match sem_id, e.sem_id with
  | some a, some b => a == b
  | some _, none => false
  | _, _ => true

/-- The `topic_filter` of the closure in `Dictionary::search`
(`e.topic.map_or(false, |t| topics.contains(&t))`). -/
def topicFilter (topics : List Topic) (e : Entry) : Bool :=
  if topics.isEmpty then true
  else (e.topic.map fun t => topics.contains t).getD false

/-- The `text_filter` of the closure in `Dictionary::search`. -/
def textFilter (text : Option String) (langs : List LanguageCode) (e : Entry) : Bool :=
  match text with
  | some t => e.matches t langs
  | none => true

/-- `Dictionary::search`: defaults `langs` to every language when
`text_langs` is empty, filters the map's values by the conjunction of the
three filters, and always returns `Ok` of the collected copies. -/
def Dictionary.search (d : Dictionary) (text : Option String)
    (text_langs : List LanguageCode) (sem_id : Option Nat)
    (topics : List Topic) : Except ApiError (List Entry) :=
  let langs := if text_langs.isEmpty then LanguageCode.all else text_langs
  .ok ((valuesE d.entries).filter fun e =>
    semFilter sem_id e && topicFilter topics e && textFilter text langs e)

/-- Well-formedness of the entry map: every binding's value carries the
binding's key as its `id` (true of every map `fetch_dict` builds, since the
loop inserts each entry under `r.id`). -/
def EntriesWF (m : EntryMap) : Prop :=
  ∀ p ∈ m, (Prod.snd p).id = p.1

/-! ### Concrete states used to instantiate the theorems -/

/-- A sample entry. -/
def e1 : Entry :=
  { id := 1, sem_id := some 5, topic := some .t1, essential_flag := true,
    basic_flag := false, lat := some "aqua", iro := none, por := none,
    spa := none, cat := none, occ := none, fra := none, srd := none,
    ita := none, rom := none, eng := none, fol := none, frk := none,
    sla := none }

/-- A sample store holding `e1` under its id. -/
def d0 : Dictionary :=
  { url := "u", entries := [(1, e1)], counters := default, last_update := 0 }

/-! ### Helper lemmas about the association-list map -/

theorem find?_filter_of_imp (l : List (Nat × Entry)) (p q : Nat × Entry → Bool)
    (h : ∀ x, p x = true → q x = true) :
    (l.filter q).find? p = l.find? p := by
  induction l with
  | nil => rfl
  | cons x xs ih =>
    by_cases hq : q x = true
    · by_cases hp : p x = true
      · simp [List.filter_cons, hq, List.find?_cons_of_pos, hp]
      · simp only [Bool.not_eq_true] at hp
        simp [List.filter_cons, hq, List.find?_cons_of_neg, hp, ih]
    · have hp : p x = false := by
        cases hpx : p x
        · rfl
        · exact absurd (h x hpx) hq
      simp [List.filter_cons, hq, List.find?_cons_of_neg, hp, ih]

theorem findE_insertE_self (m : EntryMap) (k : Nat) (v : Entry) :
    findE (insertE m k v) k = some v := by
  simp [findE, insertE, List.find?]

theorem findE_insertE_ne (m : EntryMap) (k : Nat) (v : Entry) (k' : Nat)
    (h : k' ≠ k) : findE (insertE m k v) k' = findE m k' := by
  have hk : (k == k') = false := by
    simp [Ne.symm h]
  have : (m.filter fun p => p.1 != k).find? (fun p => p.1 == k') =
      m.find? (fun p => p.1 == k') := by
    apply find?_filter_of_imp
    intro x hx
    have : x.1 = k' := by simpa using hx
    simp [this, h]
  simp [findE, insertE, List.find?, hk, this]

theorem mem_of_findE (m : EntryMap) (k : Nat) (e : Entry)
    (h : findE m k = some e) : (k, e) ∈ m := by
  simp only [findE, Option.map_eq_some'] at h
  obtain ⟨p, hp, hpe⟩ := h
  have h1 : p.1 = k := by simpa using List.find?_some hp
  have h2 : p ∈ m := List.mem_of_find?_eq_some hp
  have : p = (k, e) := by
    cases p
    simp_all
  rwa [this] at h2

/-! ### Helper lemmas about the entry-building loop -/

theorem buildStep_parsed_some (m : EntryMap) (row : List String) (e : Entry)
    (h : parsedEntry row = some e) : buildStep m row = insertE m e.id e := by
  unfold parsedEntry at h
  unfold buildStep
  cases hd : deserializeRawEntry row with
  | none => rw [hd] at h; exact absurd h (by simp)
  | some raw =>
    rw [hd] at h
    simp [tryFromRaw] at h ⊢
    rw [h]

theorem buildStep_parsed_none (m : EntryMap) (row : List String)
    (h : parsedEntry row = none) : buildStep m row = m := by
  unfold parsedEntry at h
  unfold buildStep
  cases hd : deserializeRawEntry row with
  | none => rfl
  | some raw =>
    rw [hd] at h
    simp [tryFromRaw] at h

theorem findE_buildStep_isSome (m : EntryMap) (row : List String) (k : Nat)
    (h : (findE m k).isSome = true) : (findE (buildStep m row) k).isSome = true := by
  cases hp : parsedEntry row with
  | none => rwa [buildStep_parsed_none m row hp]
  | some e =>
    rw [buildStep_parsed_some m row e hp]
    by_cases hk : k = e.id
    · subst hk; simp [findE_insertE_self]
    · rwa [findE_insertE_ne m e.id e k hk]

theorem findE_foldl_isSome (rows : List (List String)) :
    ∀ acc : EntryMap, ∀ k : Nat, (findE acc k).isSome = true →
      (findE (rows.foldl buildStep acc) k).isSome = true := by
  induction rows with
  | nil => intro acc k h; exact h
  | cons row rest ih =>
    intro acc k h
    exact ih (buildStep acc row) k (findE_buildStep_isSome acc row k h)

theorem findE_foldl_some (rows : List (List String)) :
    ∀ acc : EntryMap, ∀ k : Nat, ∀ e : Entry,
      findE (rows.foldl buildStep acc) k = some e →
      findE acc k = some e ∨ ∃ row ∈ rows, parsedEntry row = some e := by
  induction rows with
  | nil => intro acc k e h; exact Or.inl h
  | cons row rest ih =>
    intro acc k e h
    rcases ih (buildStep acc row) k e h with h1 | h2
    · cases hp : parsedEntry row with
      | none =>
        rw [buildStep_parsed_none acc row hp] at h1
        exact Or.inl h1
      | some e0 =>
        rw [buildStep_parsed_some acc row e0 hp] at h1
        by_cases hk : k = e0.id
        · subst hk
          rw [findE_insertE_self] at h1
          refine Or.inr ⟨row, List.mem_cons_self row rest, ?_⟩
          rw [hp, h1]
        · rw [findE_insertE_ne acc e0.id e0 k hk] at h1
          exact Or.inl h1
    · obtain ⟨row2, hrow2, hpe⟩ := h2
      exact Or.inr ⟨row2, List.mem_cons_of_mem row hrow2, hpe⟩

theorem findE_buildEntries_some (rows : List (List String)) (k : Nat) (e : Entry)
    (h : findE (buildEntries rows) k = some e) :
    ∃ row ∈ rows, parsedEntry row = some e := by
  rcases findE_foldl_some rows [] k e h with h1 | h2
  · exact absurd h1 (by simp [findE])
  · exact h2

theorem findE_buildEntries_key (rows : List (List String)) (row : List String)
    (hrow : row ∈ rows) (e : Entry) (hp : parsedEntry row = some e) :
    (findE (buildEntries rows) e.id).isSome = true := by
  unfold buildEntries
  suffices hgen : ∀ acc : EntryMap, (findE (rows.foldl buildStep acc) e.id).isSome = true by
    exact hgen []
  induction rows with
  | nil => exact absurd hrow (by simp)
  | cons r rest ih =>
    intro acc
    rcases List.mem_cons.mp hrow with h1 | h2
    · subst h1
      rw [List.foldl_cons, buildStep_parsed_some acc row e hp]
      exact findE_foldl_isSome rest (insertE acc e.id e) e.id
        (by simp [findE_insertE_self])
    · exact ih h2 (buildStep acc r)

theorem EntriesWF_buildStep (m : EntryMap) (row : List String)
    (h : EntriesWF m) : EntriesWF (buildStep m row) := by
  cases hp : parsedEntry row with
  | none => rwa [buildStep_parsed_none m row hp]
  | some e =>
    rw [buildStep_parsed_some m row e hp]
    intro p hp2
    rcases List.mem_cons.mp hp2 with h1 | h2
    · rw [h1]
    · exact h p (List.mem_of_mem_filter h2)

theorem EntriesWF_buildEntries (rows : List (List String)) :
    EntriesWF (buildEntries rows) := by
  unfold buildEntries
  suffices hgen : ∀ acc : EntryMap, EntriesWF acc → EntriesWF (rows.foldl buildStep acc) by
    exact hgen [] (by intro p hp; exact absurd hp (by simp))
  induction rows with
  | nil => intro acc h; exact h
  | cons row rest ih =>
    intro acc h
    exact ih (buildStep acc row) (EntriesWF_buildStep acc row h)

theorem fetchDict_wf (response : Except ApiError (List (List String)))
    (m : EntryMap) (c : Counters) (h : fetchDict response = .ok (m, c)) :
    EntriesWF m := by
  unfold fetchDict at h
  split at h
  · simp at h
  · split at h
    · simp at h
    · split at h
      · simp at h
      · simp only [Except.ok.injEq, Prod.mk.injEq] at h
        obtain ⟨hm, hc⟩ := h
        subst hm
        exact EntriesWF_buildEntries _

/-! ### Helper lemmas about `search` -/

theorem mem_search_filter (d : Dictionary) (text : Option String)
    (tl : List LanguageCode) (sem : Option Nat) (topics : List Topic)
    (l : List Entry) (h : d.search text tl sem topics = Except.ok l)
    (e : Entry) (he : e ∈ l) :
    semFilter sem e = true ∧ topicFilter topics e = true := by
  simp only [Dictionary.search, Except.ok.injEq] at h
  subst h
  have hf := List.of_mem_filter he
  simp only [Bool.and_eq_true] at hf
  exact ⟨hf.1.1, hf.1.2⟩

/-! ### Claim theorems -/

/-- C1: a failing refresh (`Dictionary::update`) leaves the store — entry
mapping, counters and last-update timestamp — exactly as it was and returns
the error, while a fetch-and-parse success replaces all three stored fields
as a unit. -/
theorem claim_C1_update_atomic (d : Dictionary)
    (response : Except ApiError (List (List String))) (now : Nat) :
    (∀ e, fetchDict response = Except.error e →
      d.update response now = (d, Except.error e)) ∧
    (∀ es cs, fetchDict response = Except.ok (es, cs) →
      d.update response now =
        ({ d with entries := es, counters := cs, last_update := now },
         Except.ok ())) := by
  constructor
  · intro e h
    simp [Dictionary.update, h]
  · intro es cs h
    simp [Dictionary.update, h]

/-- A counters row with distinct values at the sixteen read positions. -/
def countersRow : List String :=
  ["1", "2", "3", "4", "5", "6", "7", "8", "9", "10", "11", "12", "13",
   "14", "15", "16", "17", "18", "19", "20", "21", "22"]

/-- A well-formed entry row: id 1, essential marker, one Latin text. -/
def goodRow : List String :=
  ["1", "", "", "", "", "", "e", "", "aqua", "", "", "", "", "", "", "",
   "", "", "", "", "", ""]

/-- A malformed entry row (wrong column count). -/
def badRow : List String :=
  ["x"]

/-- The entry `goodRow` deserializes and converts to. -/
def e2 : Entry :=
  { id := 1, sem_id := none, topic := none, essential_flag := true,
    basic_flag := false, lat := some "aqua", iro := none, por := none,
    spa := none, cat := none, occ := none, fra := none, srd := none,
    ita := none, rom := none, eng := none, fol := none, frk := none,
    sla := none }

/-- The good feed used to instantiate the theorems: a title row, a counters
row, a skipped row, one well-formed entry row and one malformed row. -/
def feedRows : List (List String) :=
  [["h"], countersRow, ["skip"], goodRow, badRow]

/-- The counters the good feed's second row parses to. -/
def c1 : Counters :=
  ⟨1, 2, 9, 10, 11, 12, 13, 14, 15, 16, 17, 18, 19, 20, 21, 22⟩

/-- Witness for C1 at a concrete store: a transport failure leaves `d0`
untouched, a good feed replaces all three fields. -/
theorem claim_C1_update_atomic_witness :
    d0.update (Except.error ApiError.FetchFailed) 7 =
      (d0, Except.error ApiError.FetchFailed) ∧
    d0.update (Except.ok feedRows) 7 =
      ({ d0 with
          entries := buildEntries (feedRows.drop 3)
          counters := c1
          last_update := 7 }, Except.ok ()) :=
  ⟨(claim_C1_update_atomic d0 (Except.error ApiError.FetchFailed) 7).1
      ApiError.FetchFailed rfl,
   (claim_C1_update_atomic d0 (Except.ok feedRows) 7).2
      (buildEntries (feedRows.drop 3)) c1 rfl⟩

/-- C2: on a store whose mapping keys agree with the stored ids (as every
mapping built by `fetch_dict` does), `get_entry id` returns the stored copy,
whose `id` field equals the requested id, when the key is present, and fails
with `EntryNotFound id` when it is absent; the store is not modified
(`get_entry` takes `&self` and is embedded as a pure function of the
state). -/
theorem claim_C2_get_entry (d : Dictionary) (hwf : EntriesWF d.entries)
    (id : Nat) :
    (∀ e, findE d.entries id = some e →
      d.get_entry id = Except.ok e ∧ e.id = id) ∧
    (findE d.entries id = none →
      d.get_entry id = Except.error (ApiError.EntryNotFound id)) := by
  constructor
  · intro e h
    refine ⟨by simp [Dictionary.get_entry, h], ?_⟩
    exact hwf (id, e) (mem_of_findE d.entries id e h)
  · intro h
    simp [Dictionary.get_entry, h]

/-- Witness for C2 on the concrete store `d0`: id 1 is present and returned
with matching `id`, id 2 is absent and reported as `EntryNotFound 2`. -/
theorem claim_C2_get_entry_witness :
    (d0.get_entry 1 = Except.ok e1 ∧ e1.id = 1) ∧
    d0.get_entry 2 = Except.error (ApiError.EntryNotFound 2) :=
  ⟨(claim_C2_get_entry d0 (by unfold EntriesWF; decide) 1).1 e1 rfl,
   (claim_C2_get_entry d0 (by unfold EntriesWF; decide) 2).2 rfl⟩

/-- C3: `search` with `text` absent, `sem_id` absent and no topics returns
the full current entry set (here even as the literal list of the mapping's
values), whatever `text_langs` is. -/
theorem claim_C3_search_no_filters (d : Dictionary)
    (tl : List LanguageCode) :
    d.search none tl none [] = Except.ok (valuesE d.entries) := by
  simp only [Dictionary.search, Except.ok.injEq]
  exact List.filter_eq_self.mpr fun e _ => rfl

/-- C4: with `sem_id = some S`, every entry `search` returns has
`sem_id = some S` (so an entry without a `sem_id` is never returned); with
`sem_id` absent the semantic filter passes every entry. -/
theorem claim_C4_sem_filter (d : Dictionary) (text : Option String)
    (tl : List LanguageCode) (topics : List Topic) (S : Nat)
    (l : List Entry) :
    (d.search text tl (some S) topics = Except.ok l →
      ∀ e ∈ l, e.sem_id = some S) ∧
    (∀ e : Entry, semFilter none e = true) := by
  constructor
  · intro h e he
    have h2 := (mem_search_filter d text tl (some S) topics l h e he).1
    rw [semFilter.eq_def] at h2
    cases hs : e.sem_id with
    | none => rw [hs] at h2; simp at h2
    | some b =>
      rw [hs] at h2
      simp only [beq_iff_eq] at h2
      rw [h2]
  · intro e
    rfl

/-- Witness for C4 on `d0`: the search with `sem_id = 5` returns `[e1]` and
the theorem yields `e1.sem_id = some 5`; the no-`sem_id` filter passes
`e1`. -/
theorem claim_C4_sem_filter_witness :
    e1.sem_id = some 5 ∧ semFilter none e1 = true :=
  ⟨(claim_C4_sem_filter d0 none [] [] 5 [e1]).1 rfl e1 (by simp),
   (claim_C4_sem_filter d0 none [] [] 5 [e1]).2 e1⟩

/-- C5: with a non-empty topic list, every entry `search` returns has a
present topic belonging to the list (so entries with an absent or outside
topic are never returned); with an empty list the topic filter passes every
entry. -/
theorem claim_C5_topic_filter (d : Dictionary) (text : Option String)
    (tl : List LanguageCode) (sem : Option Nat) (topics : List Topic)
    (l : List Entry) :
    (topics ≠ [] → d.search text tl sem topics = Except.ok l →
      ∀ e ∈ l, ∃ t, e.topic = some t ∧ t ∈ topics) ∧
    (∀ e : Entry, topicFilter [] e = true) := by
  constructor
  · intro hne h e he
    have h2 := (mem_search_filter d text tl sem topics l h e he).2
    have hemp : topics.isEmpty = false := by
      cases topics with
      | nil => exact absurd rfl hne
      | cons a as => rfl
    rw [topicFilter, hemp] at h2
    simp only [Bool.false_eq_true, if_false] at h2
    cases ht : e.topic with
    | none => rw [ht] at h2; simp at h2
    | some t =>
      rw [ht] at h2
      simp only [Option.map_some', Option.getD_some] at h2
      exact ⟨t, rfl, by simpa using h2⟩
  · intro e
    rfl

/-- Witness for C5 on `d0`: searching with topic list `[t1]` returns `[e1]`
and the theorem yields a present topic of `e1` inside the list; the
empty-list filter passes `e1`. -/
theorem claim_C5_topic_filter_witness :
    (∃ t, e1.topic = some t ∧ t ∈ [Topic.t1]) ∧ topicFilter [] e1 = true :=
  ⟨(claim_C5_topic_filter d0 none [] none [Topic.t1] [e1]).1 (by simp) rfl
      e1 (by simp),
   (claim_C5_topic_filter d0 none [] none [Topic.t1] [e1]).2 e1⟩

/-- C10: `search` never returns an error, for any combination of arguments,
despite its `ApiResult` return type. -/
theorem claim_C10_search_total (d : Dictionary) (text : Option String)
    (tl : List LanguageCode) (sem : Option Nat) (topics : List Topic) :
    ∃ l, d.search text tl sem topics = Except.ok l :=
  ⟨_, rfl⟩

/-! ### Helper lemmas about `parseCounters` -/

theorem parseCounters_ok_iff (r : List String) (c : Counters) :
    parseCounters r = Except.ok c ↔
      (read_int r 0 = Except.ok c.total ∧
       read_int r 1 = Except.ok c.sem ∧
       read_int r 8 = Except.ok c.lat ∧
       read_int r 9 = Except.ok c.iro ∧
       read_int r 10 = Except.ok c.por ∧
       read_int r 11 = Except.ok c.spa ∧
       read_int r 12 = Except.ok c.cat ∧
       read_int r 13 = Except.ok c.occ ∧
       read_int r 14 = Except.ok c.fra ∧
       read_int r 15 = Except.ok c.srd ∧
       read_int r 16 = Except.ok c.ita ∧
       read_int r 17 = Except.ok c.rom ∧
       read_int r 18 = Except.ok c.eng ∧
       read_int r 19 = Except.ok c.fol ∧
       read_int r 20 = Except.ok c.frk ∧
       read_int r 21 = Except.ok c.sla) := by
  obtain ⟨f0, f1, f2, f3, f4, f5, f6, f7, f8, f9, f10, f11, f12, f13, f14, f15⟩ := c
  cases h0 : read_int r 0 with
  | error e => simp [parseCounters, h0, bind, Except.bind]
  | ok v0 =>
    cases h1 : read_int r 1 with
    | error e => simp [parseCounters, h0, h1, bind, Except.bind]
    | ok v1 =>
      cases h2 : read_int r 8 with
      | error e => simp [parseCounters, h0, h1, h2, bind, Except.bind]
      | ok v2 =>
        cases h3 : read_int r 9 with
        | error e => simp [parseCounters, h0, h1, h2, h3, bind, Except.bind]
        | ok v3 =>
          cases h4 : read_int r 10 with
          | error e => simp [parseCounters, h0, h1, h2, h3, h4, bind, Except.bind]
          | ok v4 =>
            cases h5 : read_int r 11 with
            | error e => simp [parseCounters, h0, h1, h2, h3, h4, h5, bind, Except.bind]
            | ok v5 =>
              cases h6 : read_int r 12 with
              | error e => simp [parseCounters, h0, h1, h2, h3, h4, h5, h6, bind, Except.bind]
              | ok v6 =>
                cases h7 : read_int r 13 with
                | error e => simp [parseCounters, h0, h1, h2, h3, h4, h5, h6, h7, bind, Except.bind]
                | ok v7 =>
                  cases h8 : read_int r 14 with
                  | error e => simp [parseCounters, h0, h1, h2, h3, h4, h5, h6, h7, h8, bind, Except.bind]
                  | ok v8 =>
                    cases h9 : read_int r 15 with
                    | error e => simp [parseCounters, h0, h1, h2, h3, h4, h5, h6, h7, h8, h9, bind, Except.bind]
                    | ok v9 =>
                      cases h10 : read_int r 16 with
                      | error e => simp [parseCounters, h0, h1, h2, h3, h4, h5, h6, h7, h8, h9, h10, bind, Except.bind]
                      | ok v10 =>
                        cases h11 : read_int r 17 with
                        | error e => simp [parseCounters, h0, h1, h2, h3, h4, h5, h6, h7, h8, h9, h10, h11, bind, Except.bind]
                        | ok v11 =>
                          cases h12 : read_int r 18 with
                          | error e => simp [parseCounters, h0, h1, h2, h3, h4, h5, h6, h7, h8, h9, h10, h11, h12, bind, Except.bind]
                          | ok v12 =>
                            cases h13 : read_int r 19 with
                            | error e => simp [parseCounters, h0, h1, h2, h3, h4, h5, h6, h7, h8, h9, h10, h11, h12, h13, bind, Except.bind]
                            | ok v13 =>
                              cases h14 : read_int r 20 with
                              | error e => simp [parseCounters, h0, h1, h2, h3, h4, h5, h6, h7, h8, h9, h10, h11, h12, h13, h14, bind, Except.bind]
                              | ok v14 =>
                                cases h15 : read_int r 21 with
                                | error e => simp [parseCounters, h0, h1, h2, h3, h4, h5, h6, h7, h8, h9, h10, h11, h12, h13, h14, h15, bind, Except.bind]
                                | ok v15 =>
                                  simp [parseCounters, h0, h1, h2, h3, h4, h5, h6, h7, h8, h9, h10, h11, h12, h13, h14, h15, bind, Except.bind, pure, Except.pure, Counters.mk.injEq]

theorem parseCounters_error_cases (r : List String) (err : ApiError)
    (h : parseCounters r = Except.error err) :
    read_int r 0 = Except.error err ∨
    read_int r 1 = Except.error err ∨
    read_int r 8 = Except.error err ∨
    read_int r 9 = Except.error err ∨
    read_int r 10 = Except.error err ∨
    read_int r 11 = Except.error err ∨
    read_int r 12 = Except.error err ∨
    read_int r 13 = Except.error err ∨
    read_int r 14 = Except.error err ∨
    read_int r 15 = Except.error err ∨
    read_int r 16 = Except.error err ∨
    read_int r 17 = Except.error err ∨
    read_int r 18 = Except.error err ∨
    read_int r 19 = Except.error err ∨
    read_int r 20 = Except.error err ∨
    read_int r 21 = Except.error err := by
  cases h0 : read_int r 0 with
  | error e =>
    simp [parseCounters, h0, bind, Except.bind] at h
    subst h
    exact Or.inl rfl
  | ok v0 =>
    cases h1 : read_int r 1 with
    | error e =>
      simp [parseCounters, h0, h1, bind, Except.bind] at h
      subst h
      exact Or.inr (Or.inl rfl)
    | ok v1 =>
      cases h2 : read_int r 8 with
      | error e =>
        simp [parseCounters, h0, h1, h2, bind, Except.bind] at h
        subst h
        exact Or.inr (Or.inr (Or.inl rfl))
      | ok v2 =>
        cases h3 : read_int r 9 with
        | error e =>
          simp [parseCounters, h0, h1, h2, h3, bind, Except.bind] at h
          subst h
          exact Or.inr (Or.inr (Or.inr (Or.inl rfl)))
        | ok v3 =>
          cases h4 : read_int r 10 with
          | error e =>
            simp [parseCounters, h0, h1, h2, h3, h4, bind, Except.bind] at h
            subst h
            exact Or.inr (Or.inr (Or.inr (Or.inr (Or.inl rfl))))
          | ok v4 =>
            cases h5 : read_int r 11 with
            | error e =>
              simp [parseCounters, h0, h1, h2, h3, h4, h5, bind, Except.bind] at h
              subst h
              exact Or.inr (Or.inr (Or.inr (Or.inr (Or.inr (Or.inl rfl)))))
            | ok v5 =>
              cases h6 : read_int r 12 with
              | error e =>
                simp [parseCounters, h0, h1, h2, h3, h4, h5, h6, bind, Except.bind] at h
                subst h
                exact Or.inr (Or.inr (Or.inr (Or.inr (Or.inr (Or.inr (Or.inl rfl))))))
              | ok v6 =>
                cases h7 : read_int r 13 with
                | error e =>
                  simp [parseCounters, h0, h1, h2, h3, h4, h5, h6, h7, bind, Except.bind] at h
                  subst h
                  exact Or.inr (Or.inr (Or.inr (Or.inr (Or.inr (Or.inr (Or.inr (Or.inl rfl)))))))
                | ok v7 =>
                  cases h8 : read_int r 14 with
                  | error e =>
                    simp [parseCounters, h0, h1, h2, h3, h4, h5, h6, h7, h8, bind, Except.bind] at h
                    subst h
                    exact Or.inr (Or.inr (Or.inr (Or.inr (Or.inr (Or.inr (Or.inr (Or.inr (Or.inl rfl))))))))
                  | ok v8 =>
                    cases h9 : read_int r 15 with
                    | error e =>
                      simp [parseCounters, h0, h1, h2, h3, h4, h5, h6, h7, h8, h9, bind, Except.bind] at h
                      subst h
                      exact Or.inr (Or.inr (Or.inr (Or.inr (Or.inr (Or.inr (Or.inr (Or.inr (Or.inr (Or.inl rfl)))))))))
                    | ok v9 =>
                      cases h10 : read_int r 16 with
                      | error e =>
                        simp [parseCounters, h0, h1, h2, h3, h4, h5, h6, h7, h8, h9, h10, bind, Except.bind] at h
                        subst h
                        exact Or.inr (Or.inr (Or.inr (Or.inr (Or.inr (Or.inr (Or.inr (Or.inr (Or.inr (Or.inr (Or.inl rfl))))))))))
                      | ok v10 =>
                        cases h11 : read_int r 17 with
                        | error e =>
                          simp [parseCounters, h0, h1, h2, h3, h4, h5, h6, h7, h8, h9, h10, h11, bind, Except.bind] at h
                          subst h
                          exact Or.inr (Or.inr (Or.inr (Or.inr (Or.inr (Or.inr (Or.inr (Or.inr (Or.inr (Or.inr (Or.inr (Or.inl rfl)))))))))))
                        | ok v11 =>
                          cases h12 : read_int r 18 with
                          | error e =>
                            simp [parseCounters, h0, h1, h2, h3, h4, h5, h6, h7, h8, h9, h10, h11, h12, bind, Except.bind] at h
                            subst h
                            exact Or.inr (Or.inr (Or.inr (Or.inr (Or.inr (Or.inr (Or.inr (Or.inr (Or.inr (Or.inr (Or.inr (Or.inr (Or.inl rfl))))))))))))
                          | ok v12 =>
                            cases h13 : read_int r 19 with
                            | error e =>
                              simp [parseCounters, h0, h1, h2, h3, h4, h5, h6, h7, h8, h9, h10, h11, h12, h13, bind, Except.bind] at h
                              subst h
                              exact Or.inr (Or.inr (Or.inr (Or.inr (Or.inr (Or.inr (Or.inr (Or.inr (Or.inr (Or.inr (Or.inr (Or.inr (Or.inr (Or.inl rfl)))))))))))))
                            | ok v13 =>
                              cases h14 : read_int r 20 with
                              | error e =>
                                simp [parseCounters, h0, h1, h2, h3, h4, h5, h6, h7, h8, h9, h10, h11, h12, h13, h14, bind, Except.bind] at h
                                subst h
                                exact Or.inr (Or.inr (Or.inr (Or.inr (Or.inr (Or.inr (Or.inr (Or.inr (Or.inr (Or.inr (Or.inr (Or.inr (Or.inr (Or.inr (Or.inl rfl))))))))))))))
                              | ok v14 =>
                                cases h15 : read_int r 21 with
                                | error e =>
                                  simp [parseCounters, h0, h1, h2, h3, h4, h5, h6, h7, h8, h9, h10, h11, h12, h13, h14, h15, bind, Except.bind] at h
                                  subst h
                                  exact Or.inr (Or.inr (Or.inr (Or.inr (Or.inr (Or.inr (Or.inr (Or.inr (Or.inr (Or.inr (Or.inr (Or.inr (Or.inr (Or.inr (Or.inr (rfl)))))))))))))))
                                | ok v15 =>
                                  simp [parseCounters, h0, h1, h2, h3, h4, h5, h6, h7, h8, h9, h10, h11, h12, h13, h14, h15, bind, Except.bind, pure, Except.pure] at h

/-- C6: counter extraction reads the sixteen fixed column positions (0, 1
and 8–21) of the second row; each cell is dot-stripped before integer
parsing, so the cell "100.000" yields 100000; a missing counters row or a
missing required column gives the `MissingDictHeaders` kind, a cell that is
non-numeric after stripping gives the `MalformedNumber` kind, and a failing
parse produces an error, never counters. -/
theorem claim_C6_counter_extraction (r : List String) :
    (∀ rows : List (List String), rows.get? 1 = none →
      fetchDict (Except.ok rows) = Except.error ApiError.MissingDictHeaders) ∧
    (∀ i, r.get? i = none →
      read_int r i = Except.error ApiError.MissingDictHeaders) ∧
    (∀ i cell, r.get? i = some cell → parseU32 (stripDots cell) = none →
      read_int r i = Except.error ApiError.MalformedNumber) ∧
    (∀ i cell n, r.get? i = some cell → parseU32 (stripDots cell) = some n →
      read_int r i = Except.ok n) ∧
    (∀ c : Counters, parseCounters r = Except.ok c ↔
      (read_int r 0 = Except.ok c.total ∧
       read_int r 1 = Except.ok c.sem ∧
       read_int r 8 = Except.ok c.lat ∧
       read_int r 9 = Except.ok c.iro ∧
       read_int r 10 = Except.ok c.por ∧
       read_int r 11 = Except.ok c.spa ∧
       read_int r 12 = Except.ok c.cat ∧
       read_int r 13 = Except.ok c.occ ∧
       read_int r 14 = Except.ok c.fra ∧
       read_int r 15 = Except.ok c.srd ∧
       read_int r 16 = Except.ok c.ita ∧
       read_int r 17 = Except.ok c.rom ∧
       read_int r 18 = Except.ok c.eng ∧
       read_int r 19 = Except.ok c.fol ∧
       read_int r 20 = Except.ok c.frk ∧
       read_int r 21 = Except.ok c.sla)) ∧
    (∀ err, parseCounters r = Except.error err →
      (read_int r 0 = Except.error err ∨
       read_int r 1 = Except.error err ∨
       read_int r 8 = Except.error err ∨
       read_int r 9 = Except.error err ∨
       read_int r 10 = Except.error err ∨
       read_int r 11 = Except.error err ∨
       read_int r 12 = Except.error err ∨
       read_int r 13 = Except.error err ∨
       read_int r 14 = Except.error err ∨
       read_int r 15 = Except.error err ∨
       read_int r 16 = Except.error err ∨
       read_int r 17 = Except.error err ∨
       read_int r 18 = Except.error err ∨
       read_int r 19 = Except.error err ∨
       read_int r 20 = Except.error err ∨
       read_int r 21 = Except.error err)) ∧
    read_int ["100.000"] 0 = Except.ok 100000 ∧
    parseCounters [] = Except.error ApiError.MissingDictHeaders ∧
    parseCounters (List.replicate 22 "x") =
      Except.error ApiError.MalformedNumber := by
  refine ⟨?_, ?_, ?_, ?_, fun c => parseCounters_ok_iff r c,
    parseCounters_error_cases r, rfl, rfl, rfl⟩
  · intro rows h
    rw [List.get?_eq_getElem?] at h
    simp [fetchDict, h]
  · intro i h
    rw [List.get?_eq_getElem?] at h
    simp [read_int, h]
  · intro i cell h1 h2
    rw [List.get?_eq_getElem?] at h1
    simp [read_int, h1, h2]
  · intro i cell n h1 h2
    rw [List.get?_eq_getElem?] at h1
    simp [read_int, h1, h2]

/-- Witness for C6: a concrete missing column, a concrete non-numeric cell,
and the dot-stripped "100.000" example. -/
theorem claim_C6_counter_extraction_witness :
    read_int ["7"] 3 = Except.error ApiError.MissingDictHeaders ∧
    read_int ["a"] 0 = Except.error ApiError.MalformedNumber ∧
    read_int ["100.000"] 0 = Except.ok 100000 :=
  ⟨(claim_C6_counter_extraction ["7"]).2.1 3 rfl,
   (claim_C6_counter_extraction ["a"]).2.2.1 0 "a" rfl rfl,
   (claim_C6_counter_extraction ["a"]).2.2.2.2.2.2.1⟩

/-- C7: once the second row parses as counters, `fetch_dict` succeeds no
matter what the entry rows contain; a row that fails structural
deserialization or conversion is silently skipped (the loop state is
unchanged and the remaining rows are still processed); every value of the
resulting mapping comes from a row that deserialized and converted
successfully, and every such row's entry id is a key of the mapping. -/
theorem claim_C7_row_skipping (rows : List (List String)) (r1 : List String)
    (c : Counters) (h1 : rows.get? 1 = some r1)
    (hc : parseCounters r1 = Except.ok c) :
    fetchDict (Except.ok rows) =
      Except.ok (buildEntries (rows.drop 3), c) ∧
    (∀ acc : EntryMap, ∀ row rest, parsedEntry row = none →
      List.foldl buildStep acc (row :: rest) = List.foldl buildStep acc rest) ∧
    (∀ k e, findE (buildEntries (rows.drop 3)) k = some e →
      ∃ row ∈ rows.drop 3, parsedEntry row = some e) ∧
    (∀ row ∈ rows.drop 3, ∀ e, parsedEntry row = some e →
      (findE (buildEntries (rows.drop 3)) e.id).isSome = true) := by
  refine ⟨?_, ?_, ?_, ?_⟩
  · rw [List.get?_eq_getElem?] at h1
    simp [fetchDict, h1, hc]
  · intro acc row rest hrow
    rw [List.foldl_cons, buildStep_parsed_none acc row hrow]
  · intro k e h
    exact findE_buildEntries_some (rows.drop 3) k e h
  · intro row hrow e hp
    exact findE_buildEntries_key (rows.drop 3) row hrow e hp

/-- Witness for C7 on the concrete feed: the parse succeeds despite the
malformed row, and the good row's id is a key of the result. -/
theorem claim_C7_row_skipping_witness :
    fetchDict (Except.ok feedRows) =
      Except.ok (buildEntries (feedRows.drop 3), c1) ∧
    (findE (buildEntries (feedRows.drop 3)) 1).isSome = true :=
  have h := claim_C7_row_skipping feedRows countersRow c1 rfl rfl
  ⟨h.1, h.2.2.2 goodRow (by simp [feedRows]) e2 rfl⟩

/-- Scrutinee form of `deserializeRawEntry` on a 22-cell record. -/
theorem deserializeRawEntry_cells (a0 a1 a2 a3 a4 a5 a6 a7 a8 a9 a10 a11
    a12 a13 a14 a15 a16 a17 a18 a19 a20 a21 : String) :
    deserializeRawEntry [a0, a1, a2, a3, a4, a5, a6, a7, a8, a9, a10, a11,
      a12, a13, a14, a15, a16, a17, a18, a19, a20, a21] =
      (parseU32 a0).bind fun i => (parseOptU32 a1).map fun s =>
        { id := i, sem_id := s, category := optStr a2, topic := parseTopic a3,
          sub_topic := optStr a4, sub_sub_topic := optStr a5,
          essential_flag := optStr a6, basic_flag := optStr a7,
          lat := optStr a8, iro := optStr a9, por := optStr a10,
          spa := optStr a11, cat := optStr a12, occ := optStr a13,
          fra := optStr a14, srd := optStr a15, ita := optStr a16,
          rom := optStr a17, eng := optStr a18, fol := optStr a19,
          frk := optStr a20, sla := optStr a21 } := by
  simp only [deserializeRawEntry]
  cases parseU32 a0 <;> cases parseOptU32 a1 <;> rfl

/-- C8: replacing the topic cell of a row that deserializes successfully by
any string never makes the row fail; the result is the same raw record with
`topic` set to whatever the total topic parser yields — `none` on an
unknown value — every other field unchanged. -/
theorem claim_C8_topic_tolerance (a0 a1 a2 a3 a4 a5 a6 a7 a8 a9 a10 a11 a12
    a13 a14 a15 a16 a17 a18 a19 a20 a21 t2 : String) (r : RawEntry)
    (h : deserializeRawEntry [a0, a1, a2, a3, a4, a5, a6, a7, a8, a9, a10,
      a11, a12, a13, a14, a15, a16, a17, a18, a19, a20, a21] = some r) :
    deserializeRawEntry [a0, a1, a2, t2, a4, a5, a6, a7, a8, a9, a10, a11,
      a12, a13, a14, a15, a16, a17, a18, a19, a20, a21] =
      some { r with topic := parseTopic t2 } ∧
    parseTopic "unknown-topic-value" = none := by
  refine ⟨?_, rfl⟩
  rw [deserializeRawEntry_cells] at h ⊢
  rcases hu : parseU32 a0 with _ | i
  · rw [hu] at h
    simp at h
  · rw [hu] at h
    rcases hv : parseOptU32 a1 with _ | s
    · rw [hv] at h
      simp at h
    · rw [hv] at h
      simp only [Option.some_bind, Option.map_some'] at h ⊢
      have h3 := Option.some.inj h
      subst h3
      rfl

/-- The raw record `goodRow` deserializes to. -/
def raw2 : RawEntry :=
  { id := 1, sem_id := none, category := none, topic := none,
    sub_topic := none, sub_sub_topic := none, essential_flag := some "e",
    basic_flag := none, lat := some "aqua", iro := none, por := none,
    spa := none, cat := none, occ := none, fra := none, srd := none,
    ita := none, rom := none, eng := none, fol := none, frk := none,
    sla := none }

/-- Witness for C8: swapping `goodRow`'s empty topic cell for "t1" keeps
the row and only changes `topic`. -/
theorem claim_C8_topic_tolerance_witness :
    deserializeRawEntry ["1", "", "", "t1", "", "", "e", "", "aqua", "", "",
      "", "", "", "", "", "", "", "", "", "", ""] =
      some { raw2 with topic := parseTopic "t1" } ∧
    parseTopic "unknown-topic-value" = none :=
  claim_C8_topic_tolerance "1" "" "" "" "" "" "e" "" "aqua" "" "" "" "" ""
    "" "" "" "" "" "" "" "" "t1" raw2 rfl

/-- C9: the `RawEntry → Entry` conversion always succeeds, and sets
`essential_flag` to true exactly when the source cell is present and equals
"e", `basic_flag` exactly when it is present and equals "b"; anything else,
including an absent cell, gives false. -/
theorem claim_C9_flags (r : RawEntry) :
    tryFromRaw r = Except.ok (entryOfRaw r) ∧
    ((entryOfRaw r).essential_flag = true ↔ r.essential_flag = some "e") ∧
    ((entryOfRaw r).basic_flag = true ↔ r.basic_flag = some "b") := by
  refine ⟨rfl, ?_, ?_⟩
  · cases h : r.essential_flag with
    | none => simp [entryOfRaw, h]
    | some s => simp [entryOfRaw, h]
  · cases h : r.basic_flag with
    | none => simp [entryOfRaw, h]
    | some s => simp [entryOfRaw, h]
